import Mathlib

/-!
Verification of the gralloc4 buffer-allocator core
(`src/gralloc4/src/hidl_common/BufferDescriptor.h`,
`src/gralloc4/src/hidl_common/Allocator.cpp`,
`src/gralloc4/src/allocator/mali_gralloc_ion.cpp`,
`src/gralloc4/src/hidl_common/Mapper.cpp`) against its natural-language
specification.  The C++ sources are shallowly embedded: byte sequences become
`List Nat` (each element one byte), machine integers become `Nat` with explicit
`% 2^w` wrapping where overflow matters, external collaborators (the kernel
heap backend, `mmap`, `sync_wait`, the format calculator) become explicit
oracle parameters, and fallible operations return `Option` or an error code.
-/

namespace Gralloc

/-- Error taxonomy of `src/gralloc4/src/mali_gralloc_error.h` (also the HIDL
mapper `Error` enum used by `hidl_common`): the numeric values follow the
header. -/
inductive Error where
  | NONE
  | BAD_DESCRIPTOR
  | BAD_BUFFER
  | BAD_VALUE
  | NO_RESOURCES
  | UNSUPPORTED
  deriving DecidableEq, Repr

/-! ## DescriptorCodec (`BufferDescriptor.h`) -/

/-- `DESCRIPTOR_32BIT_FIELDS` from `BufferDescriptor.h`. -/
def DESCRIPTOR_32BIT_FIELDS : Nat := 5

/-- `DESCRIPTOR_64BIT_FIELDS` from `BufferDescriptor.h`. -/
def DESCRIPTOR_64BIT_FIELDS : Nat := 2

/-- `HIDL_MAPPER_VERSION_SCALED` is a build-time constant (mapper 4.0 scaled
by 100).  Its exact value is irrelevant to the codec claims: encode and decode
use the same compiled constant. -/
def HIDL_MAPPER_VERSION_SCALED : Nat := 400

/-- The version tag written into / checked against the descriptor:
`HIDL_MAPPER_VERSION_SCALED / 10` in the source. -/
def DESCRIPTOR_VERSION : Nat := HIDL_MAPPER_VERSION_SCALED / 10

/-- Byte `i` of a byte sequence (out-of-range reads give 0; the source only
reads in range, guarded by the size check). -/
def byteAt (d : List Nat) (i : Nat) : Nat := d.getD i 0

/-- Little-endian 4-byte image of a `uint32_t` as written by
`push_descriptor_uint32` (a `memcpy` of the 32-bit value). -/
def u32le (n : Nat) : List Nat :=
  [n % 256, n / 2 ^ 8 % 256, n / 2 ^ 16 % 256, n / 2 ^ 24 % 256]

/-- Little-endian 8-byte image of a `uint64_t` as written by
`push_descriptor_uint64`. -/
def u64le (n : Nat) : List Nat :=
  [n % 256, n / 2 ^ 8 % 256, n / 2 ^ 16 % 256, n / 2 ^ 24 % 256,
   n / 2 ^ 32 % 256, n / 2 ^ 40 % 256, n / 2 ^ 48 % 256, n / 2 ^ 56 % 256]

/-- `pop_descriptor_uint32`: read a little-endian `uint32_t` at byte
position `pos`. -/
def readU32 (d : List Nat) (pos : Nat) : Nat :=
  byteAt d pos + 2 ^ 8 * byteAt d (pos + 1) + 2 ^ 16 * byteAt d (pos + 2) +
    2 ^ 24 * byteAt d (pos + 3)

/-- `pop_descriptor_uint64`: read a little-endian `uint64_t` at byte
position `pos`. -/
def readU64 (d : List Nat) (pos : Nat) : Nat :=
  byteAt d pos + 2 ^ 8 * byteAt d (pos + 1) + 2 ^ 16 * byteAt d (pos + 2) +
    2 ^ 24 * byteAt d (pos + 3) + 2 ^ 32 * byteAt d (pos + 4) +
    2 ^ 40 * byteAt d (pos + 5) + 2 ^ 48 * byteAt d (pos + 6) +
    2 ^ 56 * byteAt d (pos + 7)

/-- The caller-side buffer request (`BufferDescriptorInfo`): width, height and
layer count are `uint32_t`, the format is cast to `uint32_t` on the wire,
usage and reserved size are `uint64_t`, the name is a byte string. -/
structure BufferDescriptorInfo where
  width : Nat
  height : Nat
  layerCount : Nat
  format : Nat
  usage : Nat
  reservedSize : Nat
  name : List Nat
  deriving DecidableEq, Repr

/-- `MALI_GRALLOC_FORMAT_TYPE_USAGE` (the format-type tag written by decode). -/
def MALI_GRALLOC_FORMAT_TYPE_USAGE : Nat := 0

/-- `sizeof(buffer_descriptor_t)`: the signature value written by decode.  The
exact value is irrelevant to the claims; it only has to be one fixed
constant. -/
def BUFFER_DESCRIPTOR_T_SIZE : Nat := 168

/-- The gralloc-side decoded descriptor (`buffer_descriptor_t` fields that
`grallocDecodeBufferDescriptor` writes). -/
structure buffer_descriptor_t where
  width : Nat
  height : Nat
  layer_count : Nat
  hal_format : Nat
  producer_usage : Nat
  consumer_usage : Nat
  format_type : Nat
  signature : Nat
  reserved_size : Nat
  name : List Nat
  deriving DecidableEq, Repr

/-- `push_descriptor_string` uses `strcpy`, so only the bytes of the name up
to the first embedded NUL are written, followed by a terminating 0 byte. -/
def descriptorNameBytes (name : List Nat) : List Nat :=
  name.takeWhile (fun b => b ≠ 0)

/-- `grallocEncodeBufferDescriptor` (for `vecT = uint8_t`): five little-endian
32-bit fields (version tag, width, height, layer count, format), two
little-endian 64-bit fields (usage, reserved size), then the name bytes and a
single 0 terminator. -/
def grallocEncodeBufferDescriptor (info : BufferDescriptorInfo) : List Nat :=
  u32le DESCRIPTOR_VERSION ++ u32le info.width ++ u32le info.height ++
    u32le info.layerCount ++ u32le info.format ++ u64le info.usage ++
    u64le info.reservedSize ++ descriptorNameBytes info.name ++ [0]

/-- Size in bytes of the fixed-width fields:
`5 * sizeof(uint32_t) + 2 * sizeof(uint64_t) = 36`. -/
def DESCRIPTOR_STATIC_SIZE : Nat :=
  DESCRIPTOR_32BIT_FIELDS * 4 + DESCRIPTOR_64BIT_FIELDS * 8

/-- `pop_descriptor_string`: read the trailing C string starting at `pos`
(characters up to the first 0 byte). -/
def popDescriptorString (d : List Nat) (pos : Nat) : List Nat :=
  (d.drop pos).takeWhile (fun b => b ≠ 0)

/-- `grallocDecodeBufferDescriptor` (for `vecT = uint8_t`): reject input
shorter than the fixed fields plus one terminator byte, input whose last byte
is not 0, and input whose leading version tag differs from the compiled
constant; otherwise extract each field in order and the trailing name. -/
def grallocDecodeBufferDescriptor (d : List Nat) : Option buffer_descriptor_t :=
  if DESCRIPTOR_STATIC_SIZE + 1 > d.length then
    none
  else if byteAt d (d.length - 1) ≠ 0 then
    none
  else if readU32 d 0 ≠ DESCRIPTOR_VERSION then
    none
  else
    some
      { width := readU32 d 4
        height := readU32 d 8
        layer_count := readU32 d 12
        hal_format := readU32 d 16
        producer_usage := readU64 d 20
        consumer_usage := readU64 d 20
        format_type := MALI_GRALLOC_FORMAT_TYPE_USAGE
        signature := BUFFER_DESCRIPTOR_T_SIZE
        reserved_size := readU64 d 28
        name := popDescriptorString d 36 }

/-! ### Codec lemmas -/

theorem takeWhile_append_of_all {α} (p : α → Bool) (l l' : List α)
    (h : ∀ a ∈ l, p a = true) :
    (l ++ l').takeWhile p = l ++ l'.takeWhile p := by
  induction l with
  | nil => simp
  | cons a t ih =>
      have ha : p a = true := h a (by simp)
      simp [List.takeWhile_cons, ha, ih fun b hb => h b (by simp [hb])]

theorem takeWhile_eq_self_of_all {α} (p : α → Bool) (l : List α)
    (h : ∀ a ∈ l, p a = true) : l.takeWhile p = l := by
  have := takeWhile_append_of_all p l [] h
  simpa using this

theorem descriptorNameBytes_eq_self (name : List Nat)
    (h : ∀ b ∈ name, b ≠ 0) : descriptorNameBytes name = name := by
  refine takeWhile_eq_self_of_all _ name fun a ha => ?_
  simpa using h a ha

/-- The encoded descriptor in fully right-nested shape, with the fixed-width
prefix made explicit byte by byte. -/
theorem encode_explicit (info : BufferDescriptorInfo)
    (h : ∀ b ∈ info.name, b ≠ 0) :
    grallocEncodeBufferDescriptor info =
      (u32le DESCRIPTOR_VERSION ++ u32le info.width ++ u32le info.height ++
        u32le info.layerCount ++ u32le info.format ++ u64le info.usage ++
        u64le info.reservedSize ++ info.name) ++ [0] := by
  simp [grallocEncodeBufferDescriptor, descriptorNameBytes_eq_self info.name h,
    List.append_assoc]

theorem encode_length (info : BufferDescriptorInfo)
    (h : ∀ b ∈ info.name, b ≠ 0) :
    (grallocEncodeBufferDescriptor info).length = 37 + info.name.length := by
  rw [encode_explicit info h]
  simp [u32le, u64le]
  omega

/-- C1 round-trip, field extraction at position 4 (width). -/
theorem readU32_encode_width (info : BufferDescriptorInfo)
    (hw : info.width < 2 ^ 32) :
    readU32 (grallocEncodeBufferDescriptor info) 4 = info.width := by
  have hrfl : readU32 (grallocEncodeBufferDescriptor info) 4 =
      info.width % 256 + 2 ^ 8 * (info.width / 2 ^ 8 % 256) +
        2 ^ 16 * (info.width / 2 ^ 16 % 256) +
        2 ^ 24 * (info.width / 2 ^ 24 % 256) := rfl
  rw [hrfl]
  omega

theorem readU32_encode_height (info : BufferDescriptorInfo)
    (hh : info.height < 2 ^ 32) :
    readU32 (grallocEncodeBufferDescriptor info) 8 = info.height := by
  have hrfl : readU32 (grallocEncodeBufferDescriptor info) 8 =
      info.height % 256 + 2 ^ 8 * (info.height / 2 ^ 8 % 256) +
        2 ^ 16 * (info.height / 2 ^ 16 % 256) +
        2 ^ 24 * (info.height / 2 ^ 24 % 256) := rfl
  rw [hrfl]
  omega

theorem readU32_encode_layerCount (info : BufferDescriptorInfo)
    (hl : info.layerCount < 2 ^ 32) :
    readU32 (grallocEncodeBufferDescriptor info) 12 = info.layerCount := by
  have hrfl : readU32 (grallocEncodeBufferDescriptor info) 12 =
      info.layerCount % 256 + 2 ^ 8 * (info.layerCount / 2 ^ 8 % 256) +
        2 ^ 16 * (info.layerCount / 2 ^ 16 % 256) +
        2 ^ 24 * (info.layerCount / 2 ^ 24 % 256) := rfl
  rw [hrfl]
  omega

theorem readU32_encode_format (info : BufferDescriptorInfo)
    (hf : info.format < 2 ^ 32) :
    readU32 (grallocEncodeBufferDescriptor info) 16 = info.format := by
  have hrfl : readU32 (grallocEncodeBufferDescriptor info) 16 =
      info.format % 256 + 2 ^ 8 * (info.format / 2 ^ 8 % 256) +
        2 ^ 16 * (info.format / 2 ^ 16 % 256) +
        2 ^ 24 * (info.format / 2 ^ 24 % 256) := rfl
  rw [hrfl]
  omega

theorem readU64_encode_usage (info : BufferDescriptorInfo)
    (hu : info.usage < 2 ^ 64) :
    readU64 (grallocEncodeBufferDescriptor info) 20 = info.usage := by
  have hrfl : readU64 (grallocEncodeBufferDescriptor info) 20 =
      info.usage % 256 + 2 ^ 8 * (info.usage / 2 ^ 8 % 256) +
        2 ^ 16 * (info.usage / 2 ^ 16 % 256) +
        2 ^ 24 * (info.usage / 2 ^ 24 % 256) +
        2 ^ 32 * (info.usage / 2 ^ 32 % 256) +
        2 ^ 40 * (info.usage / 2 ^ 40 % 256) +
        2 ^ 48 * (info.usage / 2 ^ 48 % 256) +
        2 ^ 56 * (info.usage / 2 ^ 56 % 256) := rfl
  rw [hrfl]
  omega

theorem readU64_encode_reservedSize (info : BufferDescriptorInfo)
    (hr : info.reservedSize < 2 ^ 64) :
    readU64 (grallocEncodeBufferDescriptor info) 28 = info.reservedSize := by
  have hrfl : readU64 (grallocEncodeBufferDescriptor info) 28 =
      info.reservedSize % 256 + 2 ^ 8 * (info.reservedSize / 2 ^ 8 % 256) +
        2 ^ 16 * (info.reservedSize / 2 ^ 16 % 256) +
        2 ^ 24 * (info.reservedSize / 2 ^ 24 % 256) +
        2 ^ 32 * (info.reservedSize / 2 ^ 32 % 256) +
        2 ^ 40 * (info.reservedSize / 2 ^ 40 % 256) +
        2 ^ 48 * (info.reservedSize / 2 ^ 48 % 256) +
        2 ^ 56 * (info.reservedSize / 2 ^ 56 % 256) := rfl
  rw [hrfl]
  omega

theorem readU32_encode_version (info : BufferDescriptorInfo) :
    readU32 (grallocEncodeBufferDescriptor info) 0 = DESCRIPTOR_VERSION := rfl

theorem encode_last_byte (info : BufferDescriptorInfo)
    (h : ∀ b ∈ info.name, b ≠ 0) :
    byteAt (grallocEncodeBufferDescriptor info)
      ((grallocEncodeBufferDescriptor info).length - 1) = 0 := by
  rw [encode_explicit info h]
  set A : List Nat :=
    u32le DESCRIPTOR_VERSION ++ u32le info.width ++ u32le info.height ++
      u32le info.layerCount ++ u32le info.format ++ u64le info.usage ++
      u64le info.reservedSize ++ info.name with hA
  have hidx : (A ++ [0]).length - 1 = A.length := by
    simp
  rw [hidx, byteAt, List.getD_append_right _ _ _ _ (le_refl A.length)]
  simp

theorem popDescriptorString_encode (info : BufferDescriptorInfo)
    (h : ∀ b ∈ info.name, b ≠ 0) :
    popDescriptorString (grallocEncodeBufferDescriptor info) 36 = info.name := by
  have h0 : (grallocEncodeBufferDescriptor info).drop 36 =
      descriptorNameBytes info.name ++ [0] := rfl
  rw [popDescriptorString, h0, descriptorNameBytes_eq_self info.name h,
    takeWhile_append_of_all _ _ _ (fun a ha => by simpa using h a ha)]
  simp [List.takeWhile_cons]

/-- C1: for every valid buffer descriptor request (positive width, height and
layer count, non-zero format, any 64-bit usage and reserved size, and a name
without embedded null bytes), decoding the encoding succeeds and yields back
exactly the request's width, height, layer count, format, usage (as both
producer and consumer usage), reserved size and name. -/
theorem decode_encode_roundtrip (info : BufferDescriptorInfo)
    (hwpos : 0 < info.width) (hw : info.width < 2 ^ 32)
    (hhpos : 0 < info.height) (hh : info.height < 2 ^ 32)
    (hlpos : 0 < info.layerCount) (hl : info.layerCount < 2 ^ 32)
    (hfne : info.format ≠ 0) (hf : info.format < 2 ^ 32)
    (hu : info.usage < 2 ^ 64) (hr : info.reservedSize < 2 ^ 64)
    (hname : ∀ b ∈ info.name, b ≠ 0) :
    grallocDecodeBufferDescriptor (grallocEncodeBufferDescriptor info) =
      some
        { width := info.width
          height := info.height
          layer_count := info.layerCount
          hal_format := info.format
          producer_usage := info.usage
          consumer_usage := info.usage
          format_type := MALI_GRALLOC_FORMAT_TYPE_USAGE
          signature := BUFFER_DESCRIPTOR_T_SIZE
          reserved_size := info.reservedSize
          name := info.name } := by
  have hlen := encode_length info hname
  have c1 : ¬ (DESCRIPTOR_STATIC_SIZE + 1 >
      (grallocEncodeBufferDescriptor info).length) := by
    rw [hlen]
    simp [DESCRIPTOR_STATIC_SIZE, DESCRIPTOR_32BIT_FIELDS,
      DESCRIPTOR_64BIT_FIELDS]
  have c2 : ¬ (byteAt (grallocEncodeBufferDescriptor info)
      ((grallocEncodeBufferDescriptor info).length - 1) ≠ 0) := by
    simp [encode_last_byte info hname]
  have c3 : ¬ (readU32 (grallocEncodeBufferDescriptor info) 0 ≠
      DESCRIPTOR_VERSION) := by
    simp [readU32_encode_version info]
  rw [grallocDecodeBufferDescriptor, if_neg c1, if_neg c2, if_neg c3,
    readU32_encode_width info hw, readU32_encode_height info hh,
    readU32_encode_layerCount info hl, readU32_encode_format info hf,
    readU64_encode_usage info hu, readU64_encode_reservedSize info hr,
    popDescriptorString_encode info hname]

/-- C1 witness: the round-trip theorem applied at a concrete request. -/
theorem decode_encode_roundtrip_witness :
    grallocDecodeBufferDescriptor
        (grallocEncodeBufferDescriptor ⟨640, 480, 1, 34, 2816, 64, [103, 112]⟩) =
      some
        { width := 640
          height := 480
          layer_count := 1
          hal_format := 34
          producer_usage := 2816
          consumer_usage := 2816
          format_type := MALI_GRALLOC_FORMAT_TYPE_USAGE
          signature := BUFFER_DESCRIPTOR_T_SIZE
          reserved_size := 64
          name := [103, 112] } :=
  decode_encode_roundtrip ⟨640, 480, 1, 34, 2816, 64, [103, 112]⟩
    (by decide) (by decide) (by decide) (by decide) (by decide) (by decide)
    (by decide) (by decide) (by decide) (by decide) (by decide)

/-- C2: decoding fails (returns no descriptor) whenever the input is shorter
than the fixed-field size plus one terminator byte, or its last byte is not
the null terminator, or its embedded version tag differs from the codec's
compiled version constant. -/
theorem decode_rejects_malformed (d : List Nat)
    (h : d.length < DESCRIPTOR_STATIC_SIZE + 1 ∨
      byteAt d (d.length - 1) ≠ 0 ∨ readU32 d 0 ≠ DESCRIPTOR_VERSION) :
    grallocDecodeBufferDescriptor d = none := by
  rw [grallocDecodeBufferDescriptor]
  split_ifs with h1 h2 h3
  · rfl
  · rfl
  · rfl
  · rcases h with h | h | h
    · exact absurd h (by omega)
    · exact absurd h h2
    · exact absurd h h3

/-- C2 witness: each of the three rejection conditions discharged at a
concrete input — a truncated descriptor, a descriptor of the right length
whose last byte is not 0, and a terminated descriptor with a wrong version
tag. -/
theorem decode_rejects_malformed_witness :
    grallocDecodeBufferDescriptor [40, 0, 0, 0] = none ∧
      grallocDecodeBufferDescriptor
        [40, 0, 0, 0, 1, 0, 0, 0, 1, 0, 0, 0, 1, 0, 0, 0, 1, 0, 0, 0,
         0, 0, 0, 0, 0, 0, 0, 0, 0, 0, 0, 0, 0, 0, 0, 0, 7] = none ∧
      grallocDecodeBufferDescriptor
        [41, 0, 0, 0, 1, 0, 0, 0, 1, 0, 0, 0, 1, 0, 0, 0, 1, 0, 0, 0,
         0, 0, 0, 0, 0, 0, 0, 0, 0, 0, 0, 0, 0, 0, 0, 0, 0] = none :=
  ⟨decode_rejects_malformed _ (Or.inl (by decide)),
   decode_rejects_malformed _ (Or.inr (Or.inl (by decide))),
   decode_rejects_malformed _ (Or.inr (Or.inr (by decide)))⟩

/-! ## HeapSelector (`allocator/mali_gralloc_ion.cpp`) -/

/-- Modelled from the spec: the numeric values of the usage-bit constants come
from headers (`mali_gralloc_usages.h`, `gralloc1.h`) that are not under
`src/`; the spec only fixes them as distinct bits of a 64-bit usage set, so
they are modelled as distinct powers of two (standard Android values where
they are standard).  The heap-selection claims depend only on their
distinctness. -/
def GRALLOC_USAGE_HW_TEXTURE : Nat := 1 <<< 8

def GRALLOC_USAGE_HW_RENDER : Nat := 1 <<< 9

def GRALLOC_USAGE_HW_COMPOSER : Nat := 1 <<< 11

def GRALLOC_USAGE_PROTECTED : Nat := 1 <<< 14

def GRALLOC_USAGE_HW_CAMERA_WRITE : Nat := 1 <<< 17

def GRALLOC_USAGE_HW_CAMERA_READ : Nat := 1 <<< 18

def GRALLOC_USAGE_SENSOR_DIRECT_DATA : Nat := 1 <<< 23

def GRALLOC_USAGE_PRIVATE_NONSECURE : Nat := 1 <<< 29

def GS101_GRALLOC_USAGE_TPU_OUTPUT : Nat := 1 <<< 31

def GS101_GRALLOC_USAGE_TPU_INPUT : Nat := 1 <<< 62

/-- Modelled from the spec: ION heap mask values come from the external
`hardware/exynos/ion.h` header, absent from `src/`; only their distinctness
matters to the selection logic. -/
def EXYNOS_ION_HEAP_SYSTEM_MASK : Nat := 1 <<< 1

def EXYNOS_ION_HEAP_VIDEO_FRAME_MASK : Nat := 1 <<< 5

def EXYNOS_ION_HEAP_VIDEO_SCALER_MASK : Nat := 1 <<< 6

def EXYNOS_ION_HEAP_VIDEO_STREAM_MASK : Nat := 1 <<< 7

def EXYNOS_ION_HEAP_SENSOR_DIRECT_MASK : Nat := 1 <<< 9

def EXYNOS_ION_HEAP_FA_TPU_MASK : Nat := 1 <<< 10

def EXYNOS_ION_HEAP_FA_IMG_MASK : Nat := 1 <<< 11

def EXYNOS_ION_HEAP_FA_RAWIMG_MASK : Nat := 1 <<< 12

def EXYNOS_ION_HEAP_FA_PREV_MASK : Nat := 1 <<< 13

def EXYNOS_ION_HEAP_FA_MODEL_MASK : Nat := 1 <<< 14

/-- DMA-BUF heap names from `mali_gralloc_ion.cpp`. -/
def kDmabufSensorDirectHeapName : String := "sensor_direct_heap"

def kDmabufFaceauthTpuHeapName : String := "faceauth_tpu-secure"

def kDmabufFaceauthImgHeapName : String := "faimg-secure"

def kDmabufFaceauthRawImgHeapName : String := "farawimg-secure"

def kDmabufFaceauthPrevHeapName : String := "faprev-secure"

def kDmabufFaceauthModelHeapName : String := "famodel-secure"

def kDmabufVframeSecureHeapName : String := "vframe-secure"

def kDmabufVstreamSecureHeapName : String := "vstream-secure"

/-- `HeapSpecifier` of `select_faceauth_heap_mask`: usage bits requiring an
exact match, and the heap mask selected on a match. -/
structure HeapSpecifier where
  usage_bits : Nat
  mask : Nat
  deriving DecidableEq, Repr

/-- The `faceauth_heaps` exact-match table of `select_faceauth_heap_mask`,
in source order: isp_image_heap, isp_internal_heap, isp_preview_heap,
ml_model_heap, tpu_heap. -/
def faceauth_heaps : List HeapSpecifier :=
  [⟨GRALLOC_USAGE_PROTECTED ||| GRALLOC_USAGE_HW_CAMERA_WRITE |||
      GS101_GRALLOC_USAGE_TPU_INPUT, EXYNOS_ION_HEAP_FA_IMG_MASK⟩,
   ⟨GRALLOC_USAGE_PROTECTED ||| GRALLOC_USAGE_HW_CAMERA_WRITE |||
      GRALLOC_USAGE_HW_CAMERA_READ, EXYNOS_ION_HEAP_FA_RAWIMG_MASK⟩,
   ⟨GRALLOC_USAGE_PROTECTED ||| GRALLOC_USAGE_HW_CAMERA_WRITE |||
      GRALLOC_USAGE_HW_COMPOSER ||| GRALLOC_USAGE_HW_TEXTURE,
      EXYNOS_ION_HEAP_FA_PREV_MASK⟩,
   ⟨GRALLOC_USAGE_PROTECTED ||| GS101_GRALLOC_USAGE_TPU_INPUT,
      EXYNOS_ION_HEAP_FA_MODEL_MASK⟩,
   ⟨GRALLOC_USAGE_PROTECTED ||| GS101_GRALLOC_USAGE_TPU_OUTPUT |||
      GS101_GRALLOC_USAGE_TPU_INPUT, EXYNOS_ION_HEAP_FA_TPU_MASK⟩]

/-- `select_faceauth_heap_mask`, generalised over the exact-match table so the
claim's "independent of table ordering" can be stated: walk the table and
return the mask of the first specifier whose usage bits equal the requested
usage exactly, or 0 when none matches. -/
def select_faceauth_heap_mask_in (table : List HeapSpecifier) (usage : Nat) :
    Nat :=
  match table.find? (fun h => usage == h.usage_bits) with
  | some h => h.mask
  | none => 0

/-- `select_faceauth_heap_mask` over the source's table. -/
def select_faceauth_heap_mask (usage : Nat) : Nat :=
  select_faceauth_heap_mask_in faceauth_heaps usage

/-- `select_heap_mask`, generalised over the faceauth exact-match table:
a non-zero faceauth mask wins; otherwise protected usage routes to the
system / video-scaler / video-frame heaps, sensor-direct usage to the sensor
heap, and everything else to the system heap. -/
def select_heap_mask_in (table : List HeapSpecifier) (usage : Nat) : Nat :=
  let faceauth_heap_mask := select_faceauth_heap_mask_in table usage
  if faceauth_heap_mask ≠ 0 then
    faceauth_heap_mask
  else if usage &&& GRALLOC_USAGE_PROTECTED ≠ 0 then
    if usage &&& GRALLOC_USAGE_PRIVATE_NONSECURE ≠ 0 then
      EXYNOS_ION_HEAP_SYSTEM_MASK
    else if usage &&& GRALLOC_USAGE_HW_COMPOSER ≠ 0 ∧
        ¬ (usage &&& GRALLOC_USAGE_HW_TEXTURE ≠ 0) ∧
        ¬ (usage &&& GRALLOC_USAGE_HW_RENDER ≠ 0) then
      EXYNOS_ION_HEAP_VIDEO_SCALER_MASK
    else
      EXYNOS_ION_HEAP_VIDEO_FRAME_MASK
  else if usage &&& GRALLOC_USAGE_SENSOR_DIRECT_DATA ≠ 0 then
    EXYNOS_ION_HEAP_SENSOR_DIRECT_MASK
  else
    EXYNOS_ION_HEAP_SYSTEM_MASK

/-- `select_heap_mask` over the source's table. -/
def select_heap_mask (usage : Nat) : Nat :=
  select_heap_mask_in faceauth_heaps usage

/-- `select_dmabuf_heap`: map an ION heap mask to the equivalent DMA-BUF heap
name (empty string in the default case). -/
def select_dmabuf_heap (heap_mask : Nat) : String :=
  if heap_mask = EXYNOS_ION_HEAP_SENSOR_DIRECT_MASK then
    kDmabufSensorDirectHeapName
  else if heap_mask = EXYNOS_ION_HEAP_FA_TPU_MASK then
    kDmabufFaceauthTpuHeapName
  else if heap_mask = EXYNOS_ION_HEAP_FA_IMG_MASK then
    kDmabufFaceauthImgHeapName
  else if heap_mask = EXYNOS_ION_HEAP_FA_RAWIMG_MASK then
    kDmabufFaceauthRawImgHeapName
  else if heap_mask = EXYNOS_ION_HEAP_FA_PREV_MASK then
    kDmabufFaceauthPrevHeapName
  else if heap_mask = EXYNOS_ION_HEAP_FA_MODEL_MASK then
    kDmabufFaceauthModelHeapName
  else if heap_mask = EXYNOS_ION_HEAP_VIDEO_FRAME_MASK then
    kDmabufVframeSecureHeapName
  else if heap_mask = EXYNOS_ION_HEAP_VIDEO_STREAM_MASK then
    kDmabufVstreamSecureHeapName
  else
    ""

/-- The exact isp_image usage specifier:
`PROTECTED | HW_CAMERA_WRITE | TPU_INPUT`. -/
def isp_image_usage : Nat :=
  GRALLOC_USAGE_PROTECTED ||| GRALLOC_USAGE_HW_CAMERA_WRITE |||
    GS101_GRALLOC_USAGE_TPU_INPUT

theorem find?_of_perm_of_unique {α} (p : α → Bool) (l l' : List α) (x : α)
    (hperm : l'.Perm l) (hx : x ∈ l) (hp : p x = true)
    (huniq : ∀ y ∈ l, p y = true → y = x) : l'.find? p = some x := by
  cases hfind : l'.find? p with
  | none =>
      rw [List.find?_eq_none] at hfind
      exact absurd hp (by simpa using hfind x (hperm.mem_iff.mpr hx))
  | some y =>
      have hpy : p y = true := List.find?_some hfind
      have hmem : y ∈ l := hperm.subset (List.mem_of_find?_eq_some hfind)
      exact congrArg some (huniq y hmem hpy)

theorem find?_of_perm_of_none {α} (p : α → Bool) (l l' : List α)
    (hperm : l'.Perm l) (hnone : ∀ y ∈ l, p y = false) :
    l'.find? p = none := by
  rw [List.find?_eq_none]
  intro y hy
  simp [hnone y (hperm.subset hy)]

/-- C5: heap selection is a function of the usage bit-set alone — for usage
exactly `PROTECTED | HW_CAMERA_WRITE | TPU_INPUT` the faceauth image heap
(mask `EXYNOS_ION_HEAP_FA_IMG_MASK`, DMA-BUF heap "faimg-secure") is selected
under every permutation of the exact-match table, and for usage 0 the default
system heap is selected. -/
theorem heap_selection_isp_and_default (t : List HeapSpecifier)
    (ht : t.Perm faceauth_heaps) :
    select_heap_mask_in t isp_image_usage = EXYNOS_ION_HEAP_FA_IMG_MASK ∧
      select_dmabuf_heap (select_heap_mask_in t isp_image_usage) =
        kDmabufFaceauthImgHeapName ∧
      select_heap_mask_in t 0 = EXYNOS_ION_HEAP_SYSTEM_MASK := by
  have hfa : select_faceauth_heap_mask_in t isp_image_usage =
      EXYNOS_ION_HEAP_FA_IMG_MASK := by
    rw [select_faceauth_heap_mask_in,
      find?_of_perm_of_unique _ faceauth_heaps t
        ⟨isp_image_usage, EXYNOS_ION_HEAP_FA_IMG_MASK⟩ ht
        (by decide) (by decide) (by decide)]
  have hfa0 : select_faceauth_heap_mask_in t 0 = 0 := by
    rw [select_faceauth_heap_mask_in,
      find?_of_perm_of_none _ faceauth_heaps t ht (by decide)]
  refine ⟨?_, ?_, ?_⟩
  · rw [select_heap_mask_in]
    simp [hfa, EXYNOS_ION_HEAP_FA_IMG_MASK]
  · rw [select_heap_mask_in]
    simp [hfa, EXYNOS_ION_HEAP_FA_IMG_MASK, select_dmabuf_heap,
      EXYNOS_ION_HEAP_SENSOR_DIRECT_MASK, EXYNOS_ION_HEAP_FA_TPU_MASK]
  · rw [select_heap_mask_in]
    simp [hfa0, GRALLOC_USAGE_PROTECTED, GRALLOC_USAGE_SENSOR_DIRECT_DATA]

/-- C5 witness: the theorem applied to a non-trivial reordering (the reversed
exact-match table). -/
theorem heap_selection_isp_and_default_witness :
    select_heap_mask_in faceauth_heaps.reverse isp_image_usage =
        EXYNOS_ION_HEAP_FA_IMG_MASK ∧
      select_dmabuf_heap
          (select_heap_mask_in faceauth_heaps.reverse isp_image_usage) =
        kDmabufFaceauthImgHeapName ∧
      select_heap_mask_in faceauth_heaps.reverse 0 =
        EXYNOS_ION_HEAP_SYSTEM_MASK :=
  heap_selection_isp_and_default faceauth_heaps.reverse
    (List.reverse_perm faceauth_heaps)

/-! ## AllocationEngine (`hidl_common/Allocator.cpp`, `allocate`)

The per-buffer core allocator `mali_gralloc_buffer_allocate` and the attribute
allocation `mali_gralloc_ion_allocate_attr` live in `core/` files that are not
under `src/`; following the spec they are external collaborators ("HeapBackend"
returns a shared file descriptor or failure, the "format calculator" derives
the stride), so the loop is embedded over two oracles: `steps i` is the
outcome of the `i`-th `mali_gralloc_buffer_allocate` call (failure, or a
buffer with its plane fds and its derived `pixel_stride`), and `attrFd i` is
the metadata fd opened by `mali_gralloc_ion_allocate_attr`. -/

/-- `max_reserved_region_size = 8ull * 1024 * 1024` from `Allocator.cpp`. -/
def max_reserved_region_size : Nat := 8 * 1024 * 1024

/-- A successfully allocated buffer: the fds it owns and its derived stride. -/
structure Buffer where
  fds : List Nat
  stride : Nat
  deriving DecidableEq, Repr

/-- Outcome of one `mali_gralloc_buffer_allocate` call. -/
inductive AllocStep where
  | fail
  | success (buf : Buffer)
  deriving DecidableEq, Repr

/-- State of the `allocate` loop in `Allocator.cpp`: the pending error, the
cross-buffer `stride`, the `grallocBuffers` vector, plus resource bookkeeping
(every fd opened so far, and fds closed inline by `mali_gralloc_buffer_free`
on the stride-mismatch path). -/
structure LoopState where
  error : Error
  stride : Nat
  buffers : List Buffer
  opened : List Nat
  closedInline : List Nat
  deriving DecidableEq, Repr

/-- The `for (i = 0; i < count; i++)` loop of `allocate` (`Allocator.cpp`
lines 90-202): allocation failure breaks with `NO_RESOURCES`; a reserved
region above the cap breaks with `BAD_VALUE` after the buffer's plane fds were
already opened (and without freeing them); otherwise the attribute fd is
opened, and the stride cross-check either records the first non-zero stride,
accepts an equal stride, or frees the just-made buffer and breaks with
`UNSUPPORTED`. -/
def allocLoop (rs : Nat) (steps : Nat → AllocStep) (attrFd : Nat → Nat) :
    Nat → Nat → LoopState → LoopState
  | 0, _, s => s
  | n + 1, i, s =>
    match steps i with
    | .fail => { s with error := Error.NO_RESOURCES }
    | .success buf =>
      if rs > max_reserved_region_size then
        { s with error := Error.BAD_VALUE, opened := s.opened ++ buf.fds }
      else if s.stride = 0 then
        allocLoop rs steps attrFd n (i + 1)
          { s with
              stride := buf.stride
              buffers := s.buffers ++ [⟨buf.fds ++ [attrFd i], buf.stride⟩]
              opened := s.opened ++ buf.fds ++ [attrFd i] }
      else if s.stride ≠ buf.stride then
        { s with
            error := Error.UNSUPPORTED
            stride := 0
            closedInline := s.closedInline ++ (buf.fds ++ [attrFd i])
            opened := s.opened ++ buf.fds ++ [attrFd i] }
      else
        allocLoop rs steps attrFd n (i + 1)
          { s with
              buffers := s.buffers ++ [⟨buf.fds ++ [attrFd i], buf.stride⟩]
              opened := s.opened ++ buf.fds ++ [attrFd i] }

/-- Observable outcome of one `allocate` call: the error and stride passed to
`hidl_cb`, the buffer vector passed to `hidl_cb` (empty unless the error is
`NONE`), and the fds opened and closed during the call.  The final loop of
`allocate` frees every buffer in `grallocBuffers` before returning, so their
fds count as closed. -/
structure AllocOutcome where
  error : Error
  stride : Nat
  returned : List Buffer
  opened : List Nat
  closed : List Nat
  deriving DecidableEq, Repr

/-- `arm::allocator::common::allocate` for `count` buffers of one
descriptor. -/
def allocate (rs : Nat) (steps : Nat → AllocStep) (attrFd : Nat → Nat)
    (count : Nat) : AllocOutcome :=
  let s := allocLoop rs steps attrFd count 0 ⟨Error.NONE, 0, [], [], []⟩
  { error := s.error
    stride := s.stride
    returned := if s.error = Error.NONE then s.buffers else []
    opened := s.opened
    closed := s.closedInline ++ (s.buffers.map Buffer.fds).flatten }

theorem allocLoop_stride_inv (rs : Nat) (steps : Nat → AllocStep)
    (attrFd : Nat → Nat) :
    ∀ (n i : Nat) (s : LoopState),
      (∀ b ∈ s.buffers, b.stride ≠ 0 → b.stride = s.stride) →
      (allocLoop rs steps attrFd n i s).error = Error.NONE →
      ∀ b ∈ (allocLoop rs steps attrFd n i s).buffers, b.stride ≠ 0 →
        b.stride = (allocLoop rs steps attrFd n i s).stride := by
  intro n
  induction n with
  | zero => intro i s hs _; exact hs
  | succ n ih =>
      intro i s hs herr
      rw [allocLoop] at herr ⊢
      cases hstep : steps i with
      | fail => simp [hstep] at herr
      | success buf =>
          simp only [hstep] at herr ⊢
          by_cases hrs : rs > max_reserved_region_size
          · simp [hrs] at herr
          · simp only [if_neg hrs] at herr ⊢
            by_cases hz : s.stride = 0
            · simp only [if_pos hz] at herr ⊢
              refine ih (i + 1) _ ?_ herr
              intro b hb hbne
              rcases List.mem_append.mp hb with hb | hb
              · exact absurd (hz ▸ hs b hb hbne) hbne
              · simp at hb
                simp [hb]
            · simp only [if_neg hz] at herr ⊢
              by_cases hne : s.stride ≠ buf.stride
              · simp [if_pos hne] at herr
              · simp only [if_neg hne] at herr ⊢
                refine ih (i + 1) _ ?_ herr
                intro b hb hbne
                rcases List.mem_append.mp hb with hb | hb
                · exact hs b hb hbne
                · simp at hb
                  subst hb
                  simp at hne ⊢
                  exact hne.symm

theorem allocLoop_count (rs : Nat) (steps : Nat → AllocStep)
    (attrFd : Nat → Nat) :
    ∀ (n i : Nat) (s : LoopState),
      (allocLoop rs steps attrFd n i s).error = Error.NONE →
      (allocLoop rs steps attrFd n i s).buffers.length =
        s.buffers.length + n := by
  intro n
  induction n with
  | zero => intro i s _; rw [allocLoop]; omega
  | succ n ih =>
      intro i s herr
      rw [allocLoop] at herr ⊢
      cases hstep : steps i with
      | fail => simp [hstep] at herr
      | success buf =>
          simp only [hstep] at herr ⊢
          by_cases hrs : rs > max_reserved_region_size
          · simp [hrs] at herr
          · simp only [if_neg hrs] at herr ⊢
            by_cases hz : s.stride = 0
            · simp only [if_pos hz] at herr ⊢
              rw [ih (i + 1) _ herr]
              simp
              omega
            · simp only [if_neg hz] at herr ⊢
              by_cases hne : s.stride ≠ buf.stride
              · simp [if_pos hne] at herr
              · simp only [if_neg hne] at herr ⊢
                rw [ih (i + 1) _ herr]
                simp
                omega

/-- Multiset view of the fd bookkeeping: every fd opened by the loop ends up
either closed inline (stride mismatch) or owned by a buffer of
`grallocBuffers` (all of which the tail of `allocate` frees), provided the
reserved-size cap is respected so the leaking `BAD_VALUE` break is
unreachable. -/
theorem allocLoop_fds (rs : Nat) (steps : Nat → AllocStep)
    (attrFd : Nat → Nat) (hrs : ¬ rs > max_reserved_region_size) :
    ∀ (n i : Nat) (s : LoopState),
      (s.opened : Multiset Nat) =
        (s.closedInline : Multiset Nat) +
          ((s.buffers.map Buffer.fds).flatten : Multiset Nat) →
      ((allocLoop rs steps attrFd n i s).opened : Multiset Nat) =
        ((allocLoop rs steps attrFd n i s).closedInline : Multiset Nat) +
          (((allocLoop rs steps attrFd n i s).buffers.map Buffer.fds).flatten :
            Multiset Nat) := by
  intro n
  induction n with
  | zero => intro i s hs; exact hs
  | succ n ih =>
      intro i s hs
      rw [allocLoop]
      cases hstep : steps i with
      | fail => exact hs
      | success buf =>
          simp only
          rw [if_neg hrs]
          by_cases hz : s.stride = 0
          · rw [if_pos hz]
            refine ih (i + 1) _ ?_
            simp only [List.map_append, List.flatten_append, List.map_cons,
              List.map_nil, List.flatten_cons, List.flatten_nil,
              List.append_nil, ← Multiset.coe_add, hs]
            abel
          · rw [if_neg hz]
            by_cases hne : s.stride ≠ buf.stride
            · rw [if_pos hne]
              simp only [← Multiset.coe_add, hs]
              abel
            · rw [if_neg hne]
              refine ih (i + 1) _ ?_
              simp only [List.map_append, List.flatten_append, List.map_cons,
                List.map_nil, List.flatten_cons, List.flatten_nil,
                List.append_nil, ← Multiset.coe_add, hs]
              abel

/-- A per-buffer allocation oracle that always succeeds with plane fds
`[10, 11]` and stride 64 (used for the C3 refutation). -/
def c3steps : Nat → AllocStep := fun _ => AllocStep.success ⟨[10, 11], 64⟩

def c3attr : Nat → Nat := fun _ => 99

/-- C3 counterexample: with a reserved-region size one byte above the cap and
a per-buffer allocation that opens fds `[10, 11]`, the call does fail with
`BAD_VALUE` — but two fds were already opened for the failing request and
none of them is closed before the call returns, refuting "fails with BadValue
before any file descriptor is opened … and no file descriptor is leaked". -/
theorem reserved_cap_counterexample :
    (allocate (max_reserved_region_size + 1) c3steps c3attr 1).error =
        Error.BAD_VALUE ∧
      (allocate (max_reserved_region_size + 1) c3steps c3attr 1).opened =
        [10, 11] ∧
      (allocate (max_reserved_region_size + 1) c3steps c3attr 1).closed =
        [] := by
  decide

/-- C3 amended: a reserved-region size above the 8 MiB cap makes `allocate`
fail with `BAD_VALUE`, but the check runs only after the per-buffer allocation
has already opened the buffer's plane fds, and those fds are not closed
before the call returns (the failing buffer is leaked; it is never added to
`grallocBuffers`, the only vector the cleanup loop frees). -/
theorem reserved_cap_bad_value_after_fds_open (rs : Nat)
    (hrs : rs > max_reserved_region_size) (steps : Nat → AllocStep)
    (attrFd : Nat → Nat) (count : Nat) (hc : 0 < count) (buf : Buffer)
    (hs0 : steps 0 = AllocStep.success buf) :
    allocate rs steps attrFd count =
      { error := Error.BAD_VALUE
        stride := 0
        returned := []
        opened := buf.fds
        closed := [] } := by
  rcases count with _ | n
  · omega
  · simp [allocate, allocLoop, hs0, hrs]

/-- C3 witness for the amended theorem, at the counterexample's input. -/
theorem reserved_cap_bad_value_after_fds_open_witness :
    allocate (max_reserved_region_size + 1) c3steps c3attr 1 =
      { error := Error.BAD_VALUE
        stride := 0
        returned := []
        opened := [10, 11]
        closed := [] } :=
  reserved_cap_bad_value_after_fds_open (max_reserved_region_size + 1)
    (by decide) c3steps c3attr 1 (by decide) ⟨[10, 11], 64⟩ rfl

/-- A per-buffer allocation oracle whose first buffer derives stride 0 and
whose later buffers derive stride 7 (used for the C4 refutation). -/
def c4steps : Nat → AllocStep :=
  fun i => AllocStep.success ⟨[20 + i], if i = 0 then 0 else 7⟩

def c4attr : Nat → Nat := fun i => 90 + i

/-- C4 counterexample: all three per-buffer allocations succeed (`NONE`), yet
the three returned buffers carry strides 0, 7 and 7 — not one common value —
because a zero first stride leaves the cross-buffer stride check unarmed.
This refutes "if all three per-buffer allocations succeed, the three returned
buffers report the same stride value". -/
theorem allocate_count3_stride_counterexample :
    (allocate 0 c4steps c4attr 3).error = Error.NONE ∧
      (allocate 0 c4steps c4attr 3).returned.map Buffer.stride = [0, 7, 7] := by
  decide

/-- C4 amended: for `allocate` with `count = 3` (and a reserved size within
the cap, so the leaking `BAD_VALUE` path of C3 is not taken): (1) on success
exactly three buffers are returned and every returned buffer with a non-zero
derived stride reports the single stride of the call — buffers whose derived
stride is zero are tolerated without comparison; (2) on any failure, zero
buffers are returned and the fds closed during the call are a permutation of
every fd opened; (3) a genuine mismatch of two non-zero derived strides fails
the whole call with `UNSUPPORTED`. -/
theorem allocate_count3_stride_and_rollback (rs : Nat)
    (steps : Nat → AllocStep) (attrFd : Nat → Nat)
    (hrs : rs ≤ max_reserved_region_size) :
    ((allocate rs steps attrFd 3).error = Error.NONE →
      (allocate rs steps attrFd 3).returned.length = 3 ∧
        ∀ b ∈ (allocate rs steps attrFd 3).returned, b.stride ≠ 0 →
          b.stride = (allocate rs steps attrFd 3).stride) ∧
      ((allocate rs steps attrFd 3).error ≠ Error.NONE →
        (allocate rs steps attrFd 3).returned = [] ∧
          (allocate rs steps attrFd 3).closed.Perm
            (allocate rs steps attrFd 3).opened) ∧
      (∀ b0 b1 : Buffer, steps 0 = AllocStep.success b0 →
        steps 1 = AllocStep.success b1 → b0.stride ≠ 0 → b1.stride ≠ 0 →
        b0.stride ≠ b1.stride →
        (allocate rs steps attrFd 3).error = Error.UNSUPPORTED) := by
  have hrs' : ¬ rs > max_reserved_region_size := by omega
  refine ⟨?_, ?_, ?_⟩
  · intro herr
    have herr' : (allocLoop rs steps attrFd 3 0
        ⟨Error.NONE, 0, [], [], []⟩).error = Error.NONE := by
      simpa [allocate] using herr
    constructor
    · have hlen := allocLoop_count rs steps attrFd 3 0
        ⟨Error.NONE, 0, [], [], []⟩ herr'
      simp [allocate, herr']
      simpa using hlen
    · intro b hb hbne
      have hmem : b ∈ (allocLoop rs steps attrFd 3 0
          ⟨Error.NONE, 0, [], [], []⟩).buffers := by
        simpa [allocate, herr'] using hb
      have := allocLoop_stride_inv rs steps attrFd 3 0
        ⟨Error.NONE, 0, [], [], []⟩ (by simp) herr' b hmem hbne
      simpa [allocate] using this
  · intro herr
    have herr' : ¬ (allocLoop rs steps attrFd 3 0
        ⟨Error.NONE, 0, [], [], []⟩).error = Error.NONE := by
      simpa [allocate] using herr
    constructor
    · simp [allocate, herr']
    · have hfds := allocLoop_fds rs steps attrFd hrs' 3 0
        ⟨Error.NONE, 0, [], [], []⟩ (by simp)
      have : ((allocate rs steps attrFd 3).closed : Multiset Nat) =
          ((allocate rs steps attrFd 3).opened : Multiset Nat) := by
        simp only [allocate]
        rw [← Multiset.coe_add]
        exact hfds.symm
      exact Multiset.coe_eq_coe.mp this
  · intro b0 b1 h0 h1 hb0 hb1 hne
    simp [allocate, allocLoop, h0, h1, hrs', hb0, hne]

/-- A per-buffer allocation oracle deriving strides 5, 7, 9 (used as the
C4 witness input: the mismatch between the first two non-zero strides must
abort the call). -/
def c4wsteps : Nat → AllocStep :=
  fun i => AllocStep.success ⟨[30 + i], 5 + 2 * i⟩

/-- C4 witness: the amended theorem applied at a concrete mismatching input —
the call fails `UNSUPPORTED`, returns no buffer, and its closed fds are a
permutation of all opened fds. -/
theorem allocate_count3_stride_and_rollback_witness :
    (allocate 0 c4wsteps c4attr 3).error = Error.UNSUPPORTED ∧
      (allocate 0 c4wsteps c4attr 3).returned = [] ∧
      (allocate 0 c4wsteps c4attr 3).closed.Perm
        (allocate 0 c4wsteps c4attr 3).opened := by
  have h := allocate_count3_stride_and_rollback 0 c4wsteps c4attr (by decide)
  have he : (allocate 0 c4wsteps c4attr 3).error = Error.UNSUPPORTED :=
    h.2.2 ⟨[30], 5⟩ ⟨[31], 7⟩ rfl rfl (by decide) (by decide) (by decide)
  have hrest := h.2.1 (by rw [he]; decide)
  exact ⟨he, hrest.1, hrest.2⟩

/-! ## BufferRegistry (`hidl_common/Mapper.cpp`, `importBuffer`)

`importBuffer` (Mapper.cpp lines 269-291) clones the raw handle, registers it
(signature validation + `mali_gralloc_reference_retain`), then adds it to
`gRegisteredHandles`; a failed add releases the reference and fails with
`NO_RESOURCES`.  `RegisteredHandlePool` and the reference counter live in
files not under `src/`; modelled from the spec: the registry guarantees
at-most-one live registration per underlying handle, so a clone carries its
underlying handle's identity, `add` fails when that identity is already in
the table, `retain` appends one reference and `release` removes one. -/

/-- Registry state: the handle identities registered in
`gRegisteredHandles`, and the multiset (as a list) of retained references. -/
structure RegistryState where
  pool : List Nat
  refs : List Nat
  deriving DecidableEq, Repr

/-- `registerBuffer`: signature validation (`private_handle_t::validate`,
an oracle `valid`), then `mali_gralloc_reference_retain`. -/
def registerBuffer (valid : Nat → Bool) (s : RegistryState) (h : Nat) :
    Error × RegistryState :=
  if valid h = false then (Error.BAD_BUFFER, s)
  else (Error.NONE, { s with refs := s.refs ++ [h] })

/-- `unregisterBuffer`: signature validation, then
`mali_gralloc_reference_release`. -/
def unregisterBuffer (valid : Nat → Bool) (s : RegistryState) (h : Nat) :
    Error × RegistryState :=
  if valid h = false then (Error.BAD_BUFFER, s)
  else (Error.NONE, { s with refs := s.refs.erase h })

/-- `importBuffer`: clone, register, add to the pool; on an add collision
release the just-made clone's reference and fail with `NO_RESOURCES`. -/
def importBuffer (valid : Nat → Bool) (s : RegistryState) (h : Nat) :
    Error × RegistryState :=
  match registerBuffer valid s h with
  | (Error.NONE, s1) =>
      if s1.pool.contains h then
        (Error.NO_RESOURCES, (unregisterBuffer valid s1 h).2)
      else
        (Error.NONE, { s1 with pool := s1.pool ++ [h] })
  | (e, s1) => (e, s1)

/-- C6: importing the same raw handle twice without an intervening free —
the first import succeeds and registers the handle with one reference; the
second import fails with `NO_RESOURCES`, its just-made clone's reference is
released and its registration is not retained, leaving exactly the first
registration (one live registry entry, one reference) intact. -/
theorem double_import_no_resources (valid : Nat → Bool) (h : Nat)
    (hv : valid h = true) :
    (importBuffer valid ⟨[], []⟩ h).1 = Error.NONE ∧
      (importBuffer valid ⟨[], []⟩ h).2 = ⟨[h], [h]⟩ ∧
      (importBuffer valid (importBuffer valid ⟨[], []⟩ h).2 h).1 =
        Error.NO_RESOURCES ∧
      (importBuffer valid (importBuffer valid ⟨[], []⟩ h).2 h).2 =
        ⟨[h], [h]⟩ := by
  simp [importBuffer, registerBuffer, unregisterBuffer, hv]

/-- C6 witness: the theorem at a concrete raw handle with a passing
signature validation. -/
theorem double_import_no_resources_witness :
    (importBuffer (fun _ => true) ⟨[], []⟩ 7).1 = Error.NONE ∧
      (importBuffer (fun _ => true) ⟨[], []⟩ 7).2 = ⟨[7], [7]⟩ ∧
      (importBuffer (fun _ => true)
          (importBuffer (fun _ => true) ⟨[], []⟩ 7).2 7).1 =
        Error.NO_RESOURCES ∧
      (importBuffer (fun _ => true)
          (importBuffer (fun _ => true) ⟨[], []⟩ 7).2 7).2 =
        ⟨[7], [7]⟩ :=
  double_import_no_resources (fun _ => true) 7 rfl

/-! ## MetadataStore (`hidl_common/Mapper.cpp`, `get`, `dumpBuffer`) -/

/-- `MetadataType`: a (namespace string, numeric id) pair. -/
structure MetadataType where
  name : String
  value : Nat
  deriving DecidableEq, Repr

def GRALLOC4_STANDARD_METADATA_TYPE : String :=
  "android.hardware.graphics.common.StandardMetadataType"

/-- `arm::mapper::common::get` (Mapper.cpp lines 549-566): null handle fails
with `BAD_BUFFER`; a handle that fails `mali_gralloc_reference_validate`
(oracle `refValidate`, not under `src/`) fails with `BAD_VALUE` before
`get_metadata` (oracle `get_metadata`, `MapperMetadata.cpp` is not under
`src/`) is ever consulted. -/
def get (refValidate : Nat → Bool)
    (get_metadata : Nat → MetadataType → Error × List Nat)
    (buffer : Option Nat) (metadataType : MetadataType) : Error × List Nat :=
  match buffer with
  | none => (Error.BAD_BUFFER, [])
  | some handle =>
      if refValidate handle = false then (Error.BAD_VALUE, [])
      else get_metadata handle metadataType

def c7refValidate : Nat → Bool := fun _ => false

def c7metadata : Nat → MetadataType → Error × List Nat :=
  fun _ _ => (Error.NONE, [42])

/-- C7 counterexample: metadata `get` on a non-null handle that has not been
imported (reference validation fails) returns `BAD_VALUE` with no metadata
bytes — not the `BAD_BUFFER` the claim states (`BAD_BUFFER` is reserved for
the null handle), even though the metadata oracle would have produced
bytes. -/
theorem get_unimported_counterexample :
    get c7refValidate c7metadata (some 3)
        ⟨GRALLOC4_STANDARD_METADATA_TYPE, 1⟩ = (Error.BAD_VALUE, []) ∧
      (get c7refValidate c7metadata (some 3)
          ⟨GRALLOC4_STANDARD_METADATA_TYPE, 1⟩).1 ≠ Error.BAD_BUFFER := by
  decide

/-- C7 amended: metadata `get` on a non-null handle failing the
reference/import validation returns `BAD_VALUE` (not `BAD_BUFFER`) for every
metadata type and every metadata oracle, and returns no metadata bytes (the
metadata store is never read). -/
theorem get_unimported_returns_bad_value (refValidate : Nat → Bool)
    (gm : Nat → MetadataType → Error × List Nat) (handle : Nat)
    (mt : MetadataType) (hrv : refValidate handle = false) :
    get refValidate gm (some handle) mt = (Error.BAD_VALUE, []) := by
  simp [get, hrv]

/-- C7 witness: the amended theorem at a concrete unimported handle and
metadata type. -/
theorem get_unimported_returns_bad_value_witness :
    get c7refValidate c7metadata (some 3)
        ⟨GRALLOC4_STANDARD_METADATA_TYPE, 2⟩ = (Error.BAD_VALUE, []) :=
  get_unimported_returns_bad_value c7refValidate c7metadata 3
    ⟨GRALLOC4_STANDARD_METADATA_TYPE, 2⟩ rfl

/-! ## Lock (`hidl_common/Mapper.cpp`, `lockBuffer`) -/

/-- Events on the duplicated fence fd and the buffer during `lockBuffer`:
`dup` (the fence is duplicated on entry), `wait` (`sync_wait`), `close`
(`close(fenceFd)`), `access` (the `mali_gralloc_lock` call that grants CPU
access). -/
inductive FenceEv where
  | dup
  | wait
  | close
  | access
  deriving DecidableEq, Repr

/-- `lockBuffer` (Mapper.cpp lines 157-231) as a trace of fence/buffer
events.  Booleans stand for: a fence fd was provided (`fenceFd >= 0`), its
`dup` succeeded, `private_handle_t::validate` passed,
`mali_gralloc_reference_validate` passed, the buffer is already write-locked
(`cpu_write != 0`), and the requested usage contains `CPU_WRITE_MASK`.
`lockError` is the mapper error derived from `mali_gralloc_lock`'s result. -/
def lockBuffer (fenceProvided dupOk validateOk refValidateOk
    cpuWriteLocked usageWantsWrite : Bool) (lockError : Error) :
    Error × List FenceEv :=
  if fenceProvided && !dupOk then
    (Error.NO_RESOURCES, [])
  else
    let tr0 : List FenceEv := if fenceProvided then [FenceEv.dup] else []
    if !validateOk then
      (Error.BAD_BUFFER, tr0 ++ if fenceProvided then [FenceEv.close] else [])
    else if !refValidateOk then
      (Error.BAD_VALUE, tr0 ++ if fenceProvided then [FenceEv.close] else [])
    else
      let tr1 : List FenceEv :=
        if cpuWriteLocked && usageWantsWrite then
          tr0 ++ (if fenceProvided then [FenceEv.close] else [])
        else if fenceProvided then
          tr0 ++ [FenceEv.wait, FenceEv.close]
        else
          tr0
      (lockError, tr1 ++ [FenceEv.access])

/-- C8 counterexample: on a registered valid handle that is already
write-locked, a lock requesting write access with a provided fence closes the
fence *without waiting on it* before the CPU access — the trace is
`[dup, close, access]` and contains no `wait`, refuting "the fence is waited
on and then released before any CPU access on every path through lock,
including when the buffer is already write-locked and a write lock is
requested again". -/
theorem lock_double_write_no_wait_counterexample :
    (lockBuffer true true true true true true Error.NONE).2 =
        [FenceEv.dup, FenceEv.close, FenceEv.access] ∧
      FenceEv.wait ∉ (lockBuffer true true true true true true Error.NONE).2 := by
  decide

/-- C8 amended: on a registered valid handle with a provided, successfully
duplicated fence, the fence is waited on and then closed before the CPU
access on every path except one: when the buffer is already write-locked and
the requested usage asks for write access again, the fence is closed without
being waited on (the source's deliberate leniency for simultaneous write
locks), still before the CPU access. -/
theorem lock_fence_resolution (cpuWriteLocked usageWantsWrite : Bool)
    (lockError : Error) :
    (¬ (cpuWriteLocked = true ∧ usageWantsWrite = true) →
      (lockBuffer true true true true cpuWriteLocked usageWantsWrite
          lockError).2 =
        [FenceEv.dup, FenceEv.wait, FenceEv.close, FenceEv.access]) ∧
      (cpuWriteLocked = true → usageWantsWrite = true →
        (lockBuffer true true true true cpuWriteLocked usageWantsWrite
            lockError).2 =
          [FenceEv.dup, FenceEv.close, FenceEv.access]) := by
  cases cpuWriteLocked <;> cases usageWantsWrite <;>
    simp [lockBuffer]

/-- C8 witness: the amended theorem applied on the normal path (buffer not
write-locked) and on the lenient double-write-lock path. -/
theorem lock_fence_resolution_witness :
    (lockBuffer true true true true false true Error.NONE).2 =
        [FenceEv.dup, FenceEv.wait, FenceEv.close, FenceEv.access] ∧
      (lockBuffer true true true true true true Error.BAD_VALUE).2 =
        [FenceEv.dup, FenceEv.close, FenceEv.access] :=
  ⟨(lock_fence_resolution false true Error.NONE).1 (by simp),
   (lock_fence_resolution true true Error.BAD_VALUE).2 rfl rfl⟩

/-! ## Dump (`hidl_common/Mapper.cpp`, `dumpBufferHelper` / `dumpBuffer`) -/

/-- The fixed ordered table of standard metadata attributes queried by
`dumpBufferHelper` (Mapper.cpp lines 631-653), with the AIDL
`StandardMetadataType` numeric ids, in source order. -/
def standardMetadataTypes : List MetadataType :=
  [⟨GRALLOC4_STANDARD_METADATA_TYPE, 1⟩,
   ⟨GRALLOC4_STANDARD_METADATA_TYPE, 2⟩,
   ⟨GRALLOC4_STANDARD_METADATA_TYPE, 3⟩,
   ⟨GRALLOC4_STANDARD_METADATA_TYPE, 4⟩,
   ⟨GRALLOC4_STANDARD_METADATA_TYPE, 5⟩,
   ⟨GRALLOC4_STANDARD_METADATA_TYPE, 6⟩,
   ⟨GRALLOC4_STANDARD_METADATA_TYPE, 7⟩,
   ⟨GRALLOC4_STANDARD_METADATA_TYPE, 8⟩,
   ⟨GRALLOC4_STANDARD_METADATA_TYPE, 9⟩,
   ⟨GRALLOC4_STANDARD_METADATA_TYPE, 10⟩,
   ⟨GRALLOC4_STANDARD_METADATA_TYPE, 11⟩,
   ⟨GRALLOC4_STANDARD_METADATA_TYPE, 12⟩,
   ⟨GRALLOC4_STANDARD_METADATA_TYPE, 13⟩,
   ⟨GRALLOC4_STANDARD_METADATA_TYPE, 14⟩,
   ⟨GRALLOC4_STANDARD_METADATA_TYPE, 15⟩,
   ⟨GRALLOC4_STANDARD_METADATA_TYPE, 17⟩,
   ⟨GRALLOC4_STANDARD_METADATA_TYPE, 18⟩,
   ⟨GRALLOC4_STANDARD_METADATA_TYPE, 19⟩,
   ⟨GRALLOC4_STANDARD_METADATA_TYPE, 20⟩,
   ⟨GRALLOC4_STANDARD_METADATA_TYPE, 21⟩,
   ⟨GRALLOC4_STANDARD_METADATA_TYPE, 16⟩]

/-- The loop of `dumpBufferHelper`: query each attribute in order through the
per-handle metadata oracle `gm` (`get_metadata`, whose body is not under
`src/`); on the first failure return the empty dump (`return BufferDump()`),
otherwise accumulate one `MetadataDump` per attribute. -/
def dumpLoop (gm : MetadataType → Option (List Nat)) :
    List MetadataType → List (MetadataType × List Nat) →
      List (MetadataType × List Nat)
  | [], acc => acc
  | t :: ts, acc =>
      match gm t with
      | some m => dumpLoop gm ts (acc ++ [(t, m)])
      | none => []

/-- `dumpBufferHelper`. -/
def dumpBufferHelper (gm : MetadataType → Option (List Nat)) :
    List (MetadataType × List Nat) :=
  dumpLoop gm standardMetadataTypes []

/-- `dumpBuffer`: null handle fails `BAD_BUFFER`, otherwise the helper's
result is returned with `NONE`. -/
def dumpBuffer (gm : MetadataType → Option (List Nat))
    (buffer : Option Nat) : Error × List (MetadataType × List Nat) :=
  match buffer with
  | none => (Error.BAD_BUFFER, [])
  | some _ => (Error.NONE, dumpBufferHelper gm)

theorem dumpLoop_all_some (gm : MetadataType → Option (List Nat)) :
    ∀ (l : List MetadataType) (acc : List (MetadataType × List Nat)),
      (∀ t ∈ l, (gm t).isSome) →
      dumpLoop gm l acc = acc ++ l.map (fun t => (t, (gm t).getD [])) := by
  intro l
  induction l with
  | nil => intro acc _; simp [dumpLoop]
  | cons t ts ih =>
      intro acc hall
      obtain ⟨m, hm⟩ := Option.isSome_iff_exists.mp (hall t (by simp))
      simp only [dumpLoop, hm]
      rw [ih _ fun u hu => hall u (by simp [hu])]
      simp [hm]

theorem dumpLoop_fail (gm : MetadataType → Option (List Nat)) :
    ∀ (l : List MetadataType) (acc : List (MetadataType × List Nat))
      (t : MetadataType), t ∈ l → gm t = none → dumpLoop gm l acc = [] := by
  intro l
  induction l with
  | nil => intro acc t ht _; simp at ht
  | cons a ts ih =>
      intro acc t ht hnone
      rw [dumpLoop]
      cases ha : gm a with
      | none => rfl
      | some m =>
          rcases List.mem_cons.mp ht with rfl | ht
          · rw [ha] at hnone; cases hnone
          · exact ih _ t ht hnone

/-- C9: the dump queries the fixed ordered table of standard attributes and
is all-or-nothing — if every attribute read succeeds the dump has exactly one
entry per attribute in table order, and if any single attribute read fails
the dump is empty. -/
theorem dump_all_or_nothing (gm : MetadataType → Option (List Nat)) :
    ((∀ t ∈ standardMetadataTypes, (gm t).isSome) →
      dumpBufferHelper gm =
        standardMetadataTypes.map (fun t => (t, (gm t).getD []))) ∧
      ((∃ t ∈ standardMetadataTypes, gm t = none) →
        dumpBufferHelper gm = []) := by
  constructor
  · intro hall
    rw [dumpBufferHelper, dumpLoop_all_some gm standardMetadataTypes [] hall]
    simp
  · rintro ⟨t, ht, hnone⟩
    exact dumpLoop_fail gm standardMetadataTypes [] t ht hnone

def c9ok : MetadataType → Option (List Nat) := fun t => some [t.value]

def c9bad : MetadataType → Option (List Nat) :=
  fun t => if t.value = 9 then none else some [t.value]

/-- C9 witness: the theorem applied to an oracle where every read succeeds
(one entry per attribute, in order) and to an oracle where the USAGE read
fails (empty dump). -/
theorem dump_all_or_nothing_witness :
    dumpBufferHelper c9ok =
        standardMetadataTypes.map (fun t => (t, (c9ok t).getD [])) ∧
      dumpBufferHelper c9bad = [] :=
  ⟨(dump_all_or_nothing c9ok).1 (by decide),
   (dump_all_or_nothing c9bad).2
     ⟨⟨GRALLOC4_STANDARD_METADATA_TYPE, 9⟩, by decide, rfl⟩⟩

/-! ## `mali_gralloc_ion_map` (`allocator/mali_gralloc_ion.cpp` lines 621-657)

The partial-failure cleanup loop in the source reads

  `for (int cidx = 0; cidx < fidx; fidx++)`

— it increments `fidx` (the outer loop's index) instead of `cidx`, so once
entered with `fidx >= 1` it never advances `cidx` past plane 0 and never makes
its condition false; in C it spins until signed-integer overflow (undefined
behaviour).  The embedding makes the loop total with an explicit `fuel` bound
and returns `none` when the loop has not exited within `fuel` iterations: a
result of `none` for *every* fuel is the shallow-embedding statement of
non-termination. -/

/-- Modelled from the spec: `GRALLOC_USAGE_NOZEROED` is a vendor usage bit
from a header not under `src/`; only its distinctness matters. -/
def GRALLOC_USAGE_NOZEROED : Nat := 1 <<< 28

/-- The fields of `private_handle_t` that `mali_gralloc_ion_map` uses. -/
structure IonHandle where
  fd_count : Nat
  usage : Nat
  alloc_sizes : List Nat
  bases : List Nat
  deriving DecidableEq, Repr

/-- The buggy cleanup loop `for (cidx = 0; cidx < fidx; fidx++)`: each
iteration munmaps `bases[cidx]` and zeroes it, then increments `fidx`.
`none` means the loop had not exited after `fuel` iterations. -/
def buggyCleanup : Nat → List Nat → Nat → Nat → Option (List Nat)
  | 0, _, _, _ => none
  | fuel + 1, bases, cidx, fidx =>
      if cidx < fidx then buggyCleanup fuel (bases.set cidx 0) cidx (fidx + 1)
      else some bases

/-- The plane-mapping loop of `mali_gralloc_ion_map`: mmap each plane in
order (`mmapRes fidx` is the address, or `none` for `MAP_FAILED`); on a
failure run the cleanup loop and return `-errno` with the resulting bases. -/
def mapPlanes (mmapRes : Nat → Option Nat) (errno : Int) (fuel : Nat) :
    Nat → Nat → List Nat → Option (Int × List Nat)
  | 0, _, bases => some (0, bases)
  | rem + 1, fidx, bases =>
      match mmapRes fidx with
      | some addr =>
          mapPlanes mmapRes errno fuel rem (fidx + 1) (bases.set fidx addr)
      | none =>
          match buggyCleanup fuel bases 0 fidx with
          | some bases1 => some (-errno, bases1)
          | none => none

/-- `mali_gralloc_ion_map`: secure buffers (protected or not-zeroed usage
without the non-secure bit) are not mapped at all (return 0); otherwise every
plane fd is mmapped in order, with the (buggy) cleanup on partial failure. -/
def mali_gralloc_ion_map (mmapRes : Nat → Option Nat) (errno : Int)
    (fuel : Nat) (hnd : IonHandle) : Option (Int × IonHandle) :=
  if hnd.usage &&& (GRALLOC_USAGE_PROTECTED ||| GRALLOC_USAGE_NOZEROED) ≠ 0 ∧
      hnd.usage &&& GRALLOC_USAGE_PRIVATE_NONSECURE = 0 then
    some (0, hnd)
  else
    match mapPlanes mmapRes errno fuel hnd.fd_count 0 hnd.bases with
    | some (ret, bases1) => some (ret, { hnd with bases := bases1 })
    | none => none

theorem buggyCleanup_never_exits :
    ∀ (fuel : Nat) (bases : List Nat) (fidx : Nat), 0 < fidx →
      buggyCleanup fuel bases 0 fidx = none := by
  intro fuel
  induction fuel with
  | zero => intro bases fidx _; rfl
  | succ fuel ih =>
      intro bases fidx hf
      rw [buggyCleanup, if_pos hf]
      exact ih _ _ (by omega)

/-- The mmap oracle of the C10 failing input: planes 0 and 1 map
successfully, plane 2 fails. -/
def c10mmap : Nat → Option Nat :=
  fun i => if i < 2 then some (1000 + i) else none

/-- C10 (code bug): on a three-plane handle whose first two mmaps succeed and
whose third fails, `mali_gralloc_ion_map` never returns, for every iteration
bound on the cleanup loop — the cleanup's `fidx++` (instead of `cidx++`)
keeps its condition true forever.  By contrast, when the very first mmap
fails (no plane to roll back, the loop body is never entered because
`cidx < fidx` is false at `fidx = 0`), the function does return `-errno` with
all bases untouched — isolating the non-termination to the rollback loop. -/
theorem ion_map_rollback_diverges :
    (∀ fuel : Nat,
      mali_gralloc_ion_map c10mmap 12 fuel
        ⟨3, 0, [4096, 4096, 4096], [0, 0, 0]⟩ = none) ∧
      (∀ fuel : Nat,
        mali_gralloc_ion_map (fun _ => none) 12 (fuel + 1)
          ⟨3, 0, [4096, 4096, 4096], [0, 0, 0]⟩ =
          some (-12, ⟨3, 0, [4096, 4096, 4096], [0, 0, 0]⟩)) := by
  constructor
  · intro fuel
    have hclean := buggyCleanup_never_exits fuel [1000, 1001, 0] 2 (by omega)
    simp [mali_gralloc_ion_map, mapPlanes, c10mmap, hclean,
      GRALLOC_USAGE_PROTECTED, GRALLOC_USAGE_NOZEROED,
      GRALLOC_USAGE_PRIVATE_NONSECURE]
  · intro fuel
    simp [mali_gralloc_ion_map, mapPlanes, buggyCleanup,
      GRALLOC_USAGE_PROTECTED, GRALLOC_USAGE_NOZEROED,
      GRALLOC_USAGE_PRIVATE_NONSECURE]

end Gralloc
